import Mathlib

set_option linter.unusedVariables false

/-!
Shallow embedding of the hcvapi repository (a REST façade over HashiCorp
Vault's GCP secrets engine).

The embedding covers:
* `config/config.go` — the GCP portion of the settings structure;
* `vault/initvault.go` (package `vault`) — the secrets-engine gateway:
  `Initialize`, `configureGCPEngine`, `CreateRoleset`, `GetToken`,
  `GetServiceAccountKey`, `ListRolesets`, `DeleteRoleset`, `HealthCheck`;
* `handlers/handlers.go` — the HTTP handler layer: `CreateRoleset`,
  `GetAccessToken`, `GetServiceAccountKey`, `ErrorHandlingMiddleware`,
  and the context each handler constructs for its gateway call.

External collaborators (the Vault HTTP API, the filesystem, the JSON
codec) are modelled as explicit parameters carrying the outcome of each
call, and the gateway functions additionally return the trace of Vault
calls they issue, so that properties such as "no mount-enable call is
issued" are directly statable.
-/

/-- Dynamic Go value (`interface{}` holding decoded JSON): strings,
numbers (JSON numbers decode to `float64` in Go; modelled as `Int` since
no claim depends on fractional values), booleans, arrays
(`[]interface{}`) and objects (`map[string]interface{}`, modelled as an
association list in insertion order). -/
inductive GoVal where
  | str (s : String)
  | num (n : Int)
  | bool (b : Bool)
  | arr (xs : List GoVal)
  | map (kvs : List (String × GoVal))

/-- Lookup of a key in a decoded Go map (`m[k]` on
`map[string]interface{}`), returning `none` when the key is absent. -/
def getField (k : String) : List (String × GoVal) → Option GoVal
  | [] => none
  | kv :: rest => if k = kv.1 then some kv.2 else getField k rest

/-- Outcome of a Go computation that may return an error value or panic
(an unchecked type assertion such as `x.(string)` panics at run time). -/
inductive GoOutcome (α : Type) where
  | ok (a : α)
  | err (e : String)
  | panicked (msg : String)

/-- Model of `*api.Secret`: only the `Data` field
(`map[string]interface{}`, which may be `nil`) is consulted by this
repository. A `nil` `*api.Secret` is modelled as `none` at the use
sites. -/
structure GoSecret where
  data : Option (List (String × GoVal))

/-- Model of `*api.HealthResponse`: the two fields consulted by
`HealthCheck`. -/
structure GoHealth where
  initialized : Bool
  sealed : Bool

/-- Model of `api.MountInput`: the two fields set by `Initialize`. -/
structure MountInput where
  mountType : String
  description : String

/-- One call issued by the gateway against the Vault API. -/
inductive VaultCall where
  | listMounts
  | mountEnable (path : String) (input : MountInput)
  | logicalWrite (path : String) (data : List (String × GoVal))
  | logicalRead (path : String)
  | logicalList (path : String)
  | logicalDelete (path : String)
  | sysHealth

/-- Model of Go `strings.TrimSuffix`: drops the given suffix from the
end of the string when present, otherwise returns the string
unchanged. -/
def trimSuffix (s sfx : String) : String :=
  if sfx.data.isSuffixOf s.data then String.mk (s.data.take (s.data.length - sfx.data.length))
  else s

/-- `GCPConfig` from `config/config.go`. -/
structure GCPConfig where
  projectID : String
  serviceAccountPath : String
  defaultTokenScopes : String
  defaultTTL : String
  maxTTL : String
  disableAutomatedRotation : Bool

/-- `Config` from `config/config.go`; the `Server` and `Vault` sections
are not consulted by any verified operation and are omitted. -/
structure Config where
  gcp : GCPConfig

/-- `RolesetRequest` from `vault/initvault.go`: `Bindings` is
`map[string]interface{}` there, with a `nil` map modelled as `none`. -/
structure RolesetRequest where
  project : String
  secretType : String
  tokenScopes : String
  bindings : Option (List (String × GoVal))
  ttl : String
  maxTTL : String

/-- `TokenResponse` from `vault/initvault.go`. -/
structure TokenResponse where
  token : String
  tokenTTL : String
  expiresAtSeconds : Int

/-- `ServiceAccountKeyResponse` from `vault/initvault.go`. -/
structure ServiceAccountKeyResponse where
  privateKeyData : String
  keyAlgorithm : String
  keyType : String
  keyID : String

/-- Check a `Bool`
-/
def isErr {α : Type} : Except String α → Bool
  | Except.error _ => true
  | Except.ok _ => false

namespace Vault

/-- Description string passed to `Sys().Mount` in `Initialize`
(`vault/initvault.go` line 98). -/
def gcpMountDescription : String :=
  "GCP secrets engine for managing access tokens and service account keys"

/-- `configureGCPEngine` (`vault/initvault.go` lines 115-140).
`readFileResult` is the outcome of `ioutil.ReadFile` on the
service-account path (consulted only when the path is non-empty);
`writeResult` is the outcome of the `Logical().WriteWithContext` call on
`gcp/config`. Returns the Vault calls issued and the function result. -/
def configureGCPEngine (cfg : Config) (readFileResult : Except String String)
    (writeResult : Except String Unit) : List VaultCall × Except String Unit :=
  let base := [(("ttl"), GoVal.str cfg.gcp.defaultTTL),
               (("max_ttl"), GoVal.str cfg.gcp.maxTTL),
               (("disable_automated_rotation"), GoVal.bool cfg.gcp.disableAutomatedRotation)]
  let withCreds : Except String (List (String × GoVal)) :=
    if cfg.gcp.serviceAccountPath ≠ "" then
      match readFileResult with
      | Except.error e => Except.error (("failed to read service account file: ") ++ e)
      | Except.ok credentials => Except.ok (base ++ [(("credentials"), GoVal.str credentials)])
    else Except.ok base
  match withCreds with
  | Except.error e => ([], Except.error e)
  | Except.ok configData =>
    match writeResult with
    | Except.error e =>
      ([VaultCall.logicalWrite ("gcp/config") configData],
       Except.error (("failed to configure GCP engine: ") ++ e))
    | Except.ok _ => ([VaultCall.logicalWrite ("gcp/config") configData], Except.ok ())

/-- Wrapping applied by `Initialize` to a `configureGCPEngine` error
(`vault/initvault.go` lines 107-109). -/
def wrapConfigureResult : Except String Unit → Except String Unit
  | Except.error e => Except.error (("failed to configure GCP engine: ") ++ e)
  | Except.ok _ => Except.ok ()

/-- `Initialize` (`vault/initvault.go` lines 76-113). `listResult` is
the outcome of `Sys().ListMounts()` (on success, the list of mount-table
paths); `mountResult` is the outcome of `Sys().Mount("gcp", …)` if that
call is made. Returns the Vault calls issued and the function result. -/
def Initialize (cfg : Config) (listResult : Except String (List String))
    (mountResult : Except String Unit) (readFileResult : Except String String)
    (writeResult : Except String Unit) : List VaultCall × Except String Unit :=
  match listResult with
  | Except.error e => ([VaultCall.listMounts], Except.error (("failed to list mounts: ") ++ e))
  | Except.ok mounts =>
    let gcpMountExists := mounts.any (fun path => trimSuffix path ("/") == ("gcp"))
    if gcpMountExists then
      let c := configureGCPEngine cfg readFileResult writeResult
      (VaultCall.listMounts :: c.1, wrapConfigureResult c.2)
    else
      match mountResult with
      | Except.error e =>
        ([VaultCall.listMounts,
          VaultCall.mountEnable ("gcp") (MountInput.mk ("gcp") gcpMountDescription)],
         Except.error (("failed to enable GCP secrets engine: ") ++ e))
      | Except.ok _ =>
        let c := configureGCPEngine cfg readFileResult writeResult
        (VaultCall.listMounts ::
           VaultCall.mountEnable ("gcp") (MountInput.mk ("gcp") gcpMountDescription) :: c.1,
         wrapConfigureResult c.2)

/-- The `token_scopes` insertion of `CreateRoleset`
(`vault/initvault.go` lines 150-154). -/
def scopesField (cfg : Config) (req : RolesetRequest) : List (String × GoVal) :=
  if req.tokenScopes ≠ "" then [(("token_scopes"), GoVal.str req.tokenScopes)]
  else if req.secretType = ("access_token") then
    [(("token_scopes"), GoVal.str cfg.gcp.defaultTokenScopes)]
  else []

/-- The `bindings` insertion of `CreateRoleset` (`vault/initvault.go`
lines 156-158): `req.Bindings != nil && len(req.Bindings) > 0`. -/
def bindingsField (req : RolesetRequest) : List (String × GoVal) :=
  match req.bindings with
  | some b => if b.length > 0 then [(("bindings"), GoVal.map b)] else []
  | none => []

/-- The `ttl` insertion of `CreateRoleset` (`vault/initvault.go` lines
160-162). -/
def ttlField (req : RolesetRequest) : List (String × GoVal) :=
  if req.ttl ≠ "" then [(("ttl"), GoVal.str req.ttl)] else []

/-- The `max_ttl` insertion of `CreateRoleset` (`vault/initvault.go`
lines 164-166). -/
def maxTTLField (req : RolesetRequest) : List (String × GoVal) :=
  if req.maxTTL ≠ "" then [(("max_ttl"), GoVal.str req.maxTTL)] else []

/-- The payload map built by `CreateRoleset` (`vault/initvault.go`
lines 145-166), as an association list in insertion order. -/
def rolesetData (cfg : Config) (req : RolesetRequest) : List (String × GoVal) :=
  [(("project"), GoVal.str req.project), (("secret_type"), GoVal.str req.secretType)]
    ++ scopesField cfg req ++ bindingsField req ++ ttlField req ++ maxTTLField req

/-- `CreateRoleset` (`vault/initvault.go` lines 142-175): one
`Logical().WriteWithContext` on `gcp/roleset/{name}` with the payload
built above; `writeResult` is that call's outcome. -/
def CreateRoleset (cfg : Config) (name : String) (req : RolesetRequest)
    (writeResult : Except String Unit) : List VaultCall × Except String Unit :=
  let data := rolesetData cfg req
  ([VaultCall.logicalWrite (("gcp/roleset/") ++ name) data],
   match writeResult with
   | Except.error e => Except.error (("failed to create roleset: ") ++ e)
   | Except.ok _ => Except.ok ())

/-- The response handling of `GetToken` (`vault/initvault.go` lines
196-211): error propagation, the nil checks, and the unchecked type
assertions of the struct literal (lines 204-208) — a missing key or
wrong dynamic type panics. `upstream` is the outcome of the Vault call
(`none` models a `nil` `*api.Secret`). -/
def decodeTokenSecret (upstream : Except String (Option GoSecret)) :
    GoOutcome TokenResponse :=
  match upstream with
  | Except.error e => GoOutcome.err (("failed to get access token: ") ++ e)
  | Except.ok none => GoOutcome.err ("no token data returned")
  | Except.ok (some secret) =>
    match secret.data with
    | none => GoOutcome.err ("no token data returned")
    | some d =>
      match getField ("token") d with
      | some (GoVal.str token) =>
        match getField ("token_ttl") d with
        | some (GoVal.str tokenTTL) =>
          match getField ("expires_at_seconds") d with
          | some (GoVal.num n) => GoOutcome.ok (TokenResponse.mk token tokenTTL n)
          | _ => GoOutcome.panicked ("interface conversion on expires_at_seconds")
        | _ => GoOutcome.panicked ("interface conversion on token_ttl")
      | _ => GoOutcome.panicked ("interface conversion on token")

/-- `GetToken` (`vault/initvault.go` lines 177-212): a non-empty `ttl`
selects a `Write` on `gcp/token/{roleset}` carrying `{ttl}`, an empty
one a plain `Read` of the same path; the response is decoded by
`decodeTokenSecret`. -/
def GetToken (rolesetName ttl : String) (upstream : Except String (Option GoSecret)) :
    VaultCall × GoOutcome TokenResponse :=
  let call :=
    if ttl ≠ "" then
      VaultCall.logicalWrite (("gcp/token/") ++ rolesetName) [(("ttl"), GoVal.str ttl)]
    else VaultCall.logicalRead (("gcp/token/") ++ rolesetName)
  (call, decodeTokenSecret upstream)

/-- The response handling of `GetServiceAccountKey`
(`vault/initvault.go` lines 218-231): error propagation, the nil
checks, and the unchecked type assertions of the struct literal. -/
def decodeKeySecret (upstream : Except String (Option GoSecret)) :
    GoOutcome ServiceAccountKeyResponse :=
  match upstream with
  | Except.error e => GoOutcome.err (("failed to get service account key: ") ++ e)
  | Except.ok none => GoOutcome.err ("no key data returned")
  | Except.ok (some secret) =>
    match secret.data with
    | none => GoOutcome.err ("no key data returned")
    | some d =>
      match getField ("private_key_data") d with
      | some (GoVal.str pkd) =>
        match getField ("key_algorithm") d with
        | some (GoVal.str ka) =>
          match getField ("key_type") d with
          | some (GoVal.str kt) =>
            match getField ("key_id") d with
            | some (GoVal.str kid) =>
              GoOutcome.ok (ServiceAccountKeyResponse.mk pkd ka kt kid)
            | _ => GoOutcome.panicked ("interface conversion on key_id")
          | _ => GoOutcome.panicked ("interface conversion on key_type")
        | _ => GoOutcome.panicked ("interface conversion on key_algorithm")
      | _ => GoOutcome.panicked ("interface conversion on private_key_data")

/-- `GetServiceAccountKey` (`vault/initvault.go` lines 214-235): a
`Read` of `gcp/key/{roleset}`, with the response decoded by
`decodeKeySecret`. -/
def GetServiceAccountKey (rolesetName : String)
    (upstream : Except String (Option GoSecret)) :
    VaultCall × GoOutcome ServiceAccountKeyResponse :=
  (VaultCall.logicalRead (("gcp/key/") ++ rolesetName), decodeKeySecret upstream)

/-- The element-wise `key.(string)` conversion loop of `ListRolesets`
(`vault/initvault.go` lines 254-257): panics at the first non-string
element. -/
def goStringSlice : List GoVal → GoOutcome (List String)
  | [] => GoOutcome.ok []
  | GoVal.str s :: rest =>
    match goStringSlice rest with
    | GoOutcome.ok l => GoOutcome.ok (s :: l)
    | GoOutcome.err e => GoOutcome.err e
    | GoOutcome.panicked m => GoOutcome.panicked m
  | _ :: _ => GoOutcome.panicked ("interface conversion on roleset key")

/-- `ListRolesets` (`vault/initvault.go` lines 237-260): a `List` of
`gcp/roleset`; a `nil` secret or `nil` data yields the empty list, as
does a `keys` entry that is not a `[]interface{}`. -/
def ListRolesets (upstream : Except String (Option GoSecret)) :
    VaultCall × GoOutcome (List String) :=
  (VaultCall.logicalList ("gcp/roleset"),
   match upstream with
   | Except.error e => GoOutcome.err (("failed to list rolesets: ") ++ e)
   | Except.ok none => GoOutcome.ok []
   | Except.ok (some secret) =>
     match secret.data with
     | none => GoOutcome.ok []
     | some d =>
       match getField ("keys") d with
       | some (GoVal.arr keys) => goStringSlice keys
       | _ => GoOutcome.ok [])

/-- `DeleteRoleset` (`vault/initvault.go` lines 262-272). -/
def DeleteRoleset (name : String) (deleteResult : Except String Unit) :
    VaultCall × Except String Unit :=
  (VaultCall.logicalDelete (("gcp/roleset/") ++ name),
   match deleteResult with
   | Except.error e => Except.error (("failed to delete roleset: ") ++ e)
   | Except.ok _ => Except.ok ())

/-- `HealthCheck` (`vault/initvault.go` lines 274-288): `probe` is the
outcome of `Sys().HealthWithContext` (issued under a 5-second timeout in
the source; the timeout itself is modelled in the handler-context table
below). -/
def HealthCheck (probe : Except String GoHealth) : Except String Unit :=
  match probe with
  | Except.error e => Except.error (("vault health check failed: ") ++ e)
  | Except.ok h =>
    if !h.initialized || h.sealed then
      Except.error ((("vault is not ready: initialized=") ++ toString h.initialized)
        ++ ((", sealed=") ++ toString h.sealed))
    else Except.ok ()

end Vault

namespace Handlers

/-- `RolesetRequest` as consumed by the handler layer
(`handlers/handlers.go`): its `CreateRoleset` applies
`json.Unmarshal([]byte(req.Bindings), …)` and later
`req.Bindings = string(bindingsJSON)`, so in that layer `Bindings` is a
JSON text field (a string); a body that omits `bindings` decodes it to
the zero value `""`. The remaining fields carry the same binding tags as
`vault/initvault.go` lines 34-41: `binding:"required"` on `project` and
`binding:"required,oneof=access_token service_account_key"` on
`secret_type`. -/
structure HRolesetRequest where
  project : String
  secretType : String
  tokenScopes : String
  bindings : String
  ttl : String
  maxTTL : String

/-- The validation gin performs for the binding tags of
`RolesetRequest`: `required` fails on the zero value `""`, and `oneof`
restricts `secret_type` to the two recognized values. -/
def bindingValidate (r : HRolesetRequest) : Bool :=
  (!(r.project == (""))) &&
    ((r.secretType == ("access_token")) || (r.secretType == ("service_account_key")))

/-- Model of gin's `ShouldBindJSON` on a create-roleset body: `none`
stands for a body that does not decode into the struct at all
(malformed JSON or mismatched field types); a decoded struct is then
checked against the binding tags. The error strings abstract gin's
messages. -/
def ShouldBindJSON (body : Option HRolesetRequest) : Except String HRolesetRequest :=
  match body with
  | none => Except.error ("invalid request body")
  | some r => if bindingValidate r then Except.ok r else Except.error ("validation failed")

/-- HTTP reply rendered by a handler: status code plus envelope. -/
inductive HttpReply where
  | success (status : Nat) (message : String)
  | token (status : Nat) (t : TokenResponse)
  | key (status : Nat) (k : ServiceAccountKeyResponse)
  | listing (status : Nat) (rolesets : List String) (count : Nat)
  | failure (status : Nat) (error : String) (details : Option String)

/-- Status code of a reply. -/
def HttpReply.status : HttpReply → Nat
  | HttpReply.success s _ => s
  | HttpReply.token s _ => s
  | HttpReply.key s _ => s
  | HttpReply.listing s _ _ => s
  | HttpReply.failure s _ _ => s

/-- Result of running a handler body: either it rendered a reply, or a
panic escaped it (to be caught by the recovery middleware). -/
inductive HandlerOutcome where
  | replied (r : HttpReply)
  | panicked (msg : String)

/-- Reply of `CreateRoleset` together with whether the gateway
(`vaultClient.CreateRoleset`, hence Vault) was reached. -/
structure HandlerTrace where
  reply : HttpReply
  gatewayCalled : Bool

/-- Handler `CreateRoleset` (`handlers/handlers.go` lines 381-410):
empty name → 400; bind/validation failure → 400; then the body's
`bindings` JSON text is unmarshalled into a map (failure → 400
"Invalid bindings format") and re-marshalled back into `req.Bindings`
before the gateway call under `context.Background()`.
`unmarshalBindings` models `json.Unmarshal` into
`map[string]interface{}`; `gatewayResult` the gateway call outcome. -/
def CreateRoleset (name : String) (body : Option HRolesetRequest)
    (unmarshalBindings : String → Except String (List (String × GoVal)))
    (gatewayResult : Except String Unit) : HandlerTrace :=
  if name == "" then
    HandlerTrace.mk (HttpReply.failure 400 ("Roleset name required") none) false
  else
    match ShouldBindJSON body with
    | Except.error e => HandlerTrace.mk (HttpReply.failure 400 e none) false
    | Except.ok req =>
      match unmarshalBindings req.bindings with
      | Except.error _ =>
        HandlerTrace.mk (HttpReply.failure 400 ("Invalid bindings format") none) false
      | Except.ok _bindingsMap =>
        match gatewayResult with
        | Except.error e => HandlerTrace.mk (HttpReply.failure 500 e none) true
        | Except.ok _ =>
          HandlerTrace.mk (HttpReply.success 201 ("Roleset created successfully")) true

/-- Handler `GetAccessToken` (`handlers/handlers.go` lines 413-443):
empty name → 400; a bind error on the optional `{ttl}` body is ignored;
the gateway `GetToken` error → 500 with details; a panic escapes. -/
def GetAccessToken (name : String) (ttlBody : String)
    (upstream : Except String (Option GoSecret)) : HandlerOutcome :=
  if name == "" then
    HandlerOutcome.replied (HttpReply.failure 400 ("Roleset name is required") none)
  else
    match (Vault.GetToken name ttlBody upstream).2 with
    | GoOutcome.panicked m => HandlerOutcome.panicked m
    | GoOutcome.err e =>
      HandlerOutcome.replied (HttpReply.failure 500 ("Failed to generate access token") (some e))
    | GoOutcome.ok t => HandlerOutcome.replied (HttpReply.token 200 t)

/-- Handler `GetServiceAccountKey` (`handlers/handlers.go` lines
446-472). -/
def GetServiceAccountKey (name : String)
    (upstream : Except String (Option GoSecret)) : HandlerOutcome :=
  if name == "" then
    HandlerOutcome.replied (HttpReply.failure 400 ("Roleset name is required") none)
  else
    match (Vault.GetServiceAccountKey name upstream).2 with
    | GoOutcome.panicked m => HandlerOutcome.panicked m
    | GoOutcome.err e =>
      HandlerOutcome.replied
        (HttpReply.failure 500 ("Failed to generate service account key") (some e))
    | GoOutcome.ok k => HandlerOutcome.replied (HttpReply.key 200 k)

/-- `ErrorHandlingMiddleware` (`handlers/handlers.go` lines 561-569):
`gin.CustomRecovery` turns any panic escaping a handler into a 500
response whose `ErrorResponse` carries only the fixed text
"Internal server error" — the recovered value is logged, never sent. -/
def ErrorHandlingMiddleware : HandlerOutcome → HttpReply
  | HandlerOutcome.replied r => r
  | HandlerOutcome.panicked _ => HttpReply.failure 500 ("Internal server error") none

/-- Where a handler-constructed context comes from. -/
inductive CtxParent where
  | requestCtx
  | background
deriving DecidableEq

/-- The context a handler constructs for its gateway call: its parent
and its timeout (in seconds), if any. -/
structure CtxSpec where
  parent : CtxParent
  timeoutSeconds : Option Nat
deriving DecidableEq

/-- The six gateway operations invoked from the handler layer. -/
inductive GatewayOp where
  | createRoleset
  | listRolesets
  | deleteRoleset
  | getToken
  | getKey
  | healthProbe
deriving DecidableEq

/-- The context each handler passes to its gateway operation, read off
`handlers/handlers.go`: `HealthCheck` line 363
(`context.WithTimeout(c.Request.Context(), 5*time.Second)`),
`CreateRoleset` line 404 (`context.Background()`, no timeout),
`GetAccessToken` line 426 (request context, 30s), `GetServiceAccountKey`
line 455 (request context, 30s), `ListRolesets` line 476 (request
context, 15s), `DeleteRoleset` line 508 (request context, 15s). -/
def handlerCtx : GatewayOp → CtxSpec
  | GatewayOp.createRoleset => CtxSpec.mk CtxParent.background none
  | GatewayOp.listRolesets => CtxSpec.mk CtxParent.requestCtx (some 15)
  | GatewayOp.deleteRoleset => CtxSpec.mk CtxParent.requestCtx (some 15)
  | GatewayOp.getToken => CtxSpec.mk CtxParent.requestCtx (some 30)
  | GatewayOp.getKey => CtxSpec.mk CtxParent.requestCtx (some 30)
  | GatewayOp.healthProbe => CtxSpec.mk CtxParent.requestCtx (some 5)

end Handlers

/-- Minimal model of Go's `encoding/json.Unmarshal` into
`map[string]interface{}`, used to instantiate theorems at concrete
inputs: empty input is a syntax error ("unexpected end of JSON input" in
Go); any other input is treated as decoding successfully, which is
sufficient for the concrete inputs considered here. -/
def jsonUnmarshalStub : String → Except String (List (String × GoVal)) :=
  fun s => if s == "" then Except.error ("unexpected end of JSON input") else Except.ok []

/-- A concrete settings value matching the repository defaults, with no
service-account file configured. -/
def sampleConfig : Config :=
  Config.mk (GCPConfig.mk ("p") ("")
    ("https://www.googleapis.com/auth/cloud-platform") ("3600s") ("7200s") false)

/-- A concrete settings value with a service-account file configured. -/
def sampleConfigSA : Config :=
  Config.mk (GCPConfig.mk ("p") ("/sa.json")
    ("https://www.googleapis.com/auth/cloud-platform") ("3600s") ("7200s") false)

/-- Whether a token response map would satisfy all three type
assertions of `GetToken` (`vault/initvault.go` lines 204-208): `token`
and `token_ttl` present as strings and `expires_at_seconds` present as
a number. -/
def tokenFieldsTyped (d : List (String × GoVal)) : Bool :=
  (match getField ("token") d with
   | some (GoVal.str _) => true
   | _ => false) &&
  (match getField ("token_ttl") d with
   | some (GoVal.str _) => true
   | _ => false) &&
  (match getField ("expires_at_seconds") d with
   | some (GoVal.num _) => true
   | _ => false)

/-- Whether a key response map would satisfy all four type assertions
of `GetServiceAccountKey` (`vault/initvault.go` lines 226-231). -/
def keyFieldsTyped (d : List (String × GoVal)) : Bool :=
  (match getField ("private_key_data") d with
   | some (GoVal.str _) => true
   | _ => false) &&
  (match getField ("key_algorithm") d with
   | some (GoVal.str _) => true
   | _ => false) &&
  (match getField ("key_type") d with
   | some (GoVal.str _) => true
   | _ => false) &&
  (match getField ("key_id") d with
   | some (GoVal.str _) => true
   | _ => false)

theorem getField_cons_eq (k : String) (v : GoVal) (rest : List (String × GoVal)) :
    getField k ((k, v) :: rest) = some v := by
  simp [getField]

theorem getField_cons_ne (k key : String) (v : GoVal) (rest : List (String × GoVal))
    (h : k ≠ key) : getField k ((key, v) :: rest) = getField k rest := by
  simp [getField, h]

theorem getField_append (k : String) (l₁ l₂ : List (String × GoVal)) :
    getField k (l₁ ++ l₂) =
      match getField k l₁ with
      | some v => some v
      | none => getField k l₂ := by
  induction l₁ with
  | nil => simp [getField]
  | cons kv rest ih =>
    by_cases h : k = kv.1
    · simp [getField, h]
    · simp [getField, h, ih]

theorem getField_scopesField (cfg : Config) (req : RolesetRequest) :
    getField ("token_scopes") (Vault.scopesField cfg req) =
      (if req.tokenScopes ≠ "" then some (GoVal.str req.tokenScopes)
       else if req.secretType = ("access_token") then
         some (GoVal.str cfg.gcp.defaultTokenScopes)
       else none) := by
  unfold Vault.scopesField
  split_ifs <;> simp [getField]

theorem getField_bindingsField (req : RolesetRequest) :
    getField ("token_scopes") (Vault.bindingsField req) = none := by
  rcases hb : req.bindings with _ | b <;> simp [Vault.bindingsField, hb, getField]
  split_ifs <;> simp [getField]

theorem getField_ttlField (req : RolesetRequest) :
    getField ("token_scopes") (Vault.ttlField req) = none := by
  unfold Vault.ttlField
  split_ifs <;> simp [getField]

theorem getField_maxTTLField (req : RolesetRequest) :
    getField ("token_scopes") (Vault.maxTTLField req) = none := by
  unfold Vault.maxTTLField
  split_ifs <;> simp [getField]

/-- Claim C3: for every `CreateRoleset` gateway call, the payload
forwarded to Vault is written once to `gcp/roleset/{name}`, and its
`token_scopes` field is the caller-supplied scopes when non-empty,
otherwise the configured default scopes when `secret_type` is
`access_token`, and otherwise absent from the payload. -/
theorem createRoleset_token_scopes_payload (cfg : Config) (name : String)
    (req : RolesetRequest) (writeResult : Except String Unit) :
    (Vault.CreateRoleset cfg name req writeResult).1 =
      [VaultCall.logicalWrite (("gcp/roleset/") ++ name) (Vault.rolesetData cfg req)] ∧
    getField ("token_scopes") (Vault.rolesetData cfg req) =
      (if req.tokenScopes ≠ "" then some (GoVal.str req.tokenScopes)
       else if req.secretType = ("access_token") then
         some (GoVal.str cfg.gcp.defaultTokenScopes)
       else none) := by
  refine ⟨rfl, ?_⟩
  unfold Vault.rolesetData
  rw [List.append_assoc, List.append_assoc, List.append_assoc]
  rw [show ([(("project"), GoVal.str req.project),
        (("secret_type"), GoVal.str req.secretType)] : List (String × GoVal)) =
      [(("project"), GoVal.str req.project)] ++ [(("secret_type"), GoVal.str req.secretType)]
      from rfl]
  rw [List.append_assoc]
  rw [getField_append, getField_append, getField_append, getField_append, getField_append]
  simp only [getField_cons_ne _ _ _ _ (by decide : ("token_scopes" : String) ≠ ("project")),
    getField_cons_ne _ _ _ _ (by decide : ("token_scopes" : String) ≠ ("secret_type")),
    getField_scopesField, getField_bindingsField, getField_ttlField, getField_maxTTLField]
  split_ifs <;> simp [getField]

theorem configureGCPEngine_ok (cfg : Config) (readFileResult : Except String String)
    (creds : String) (hfile : cfg.gcp.serviceAccountPath ≠ "" → readFileResult = Except.ok creds)
    (writeResult : Except String Unit) :
    Vault.configureGCPEngine cfg readFileResult writeResult =
      ((match writeResult with
        | Except.error e =>
          ([VaultCall.logicalWrite ("gcp/config")
              ([(("ttl"), GoVal.str cfg.gcp.defaultTTL),
                (("max_ttl"), GoVal.str cfg.gcp.maxTTL),
                (("disable_automated_rotation"), GoVal.bool cfg.gcp.disableAutomatedRotation)]
                ++ (if cfg.gcp.serviceAccountPath ≠ "" then
                      [(("credentials"), GoVal.str creds)]
                    else []))],
            Except.error (("failed to configure GCP engine: ") ++ e))
        | Except.ok _ =>
          ([VaultCall.logicalWrite ("gcp/config")
              ([(("ttl"), GoVal.str cfg.gcp.defaultTTL),
                (("max_ttl"), GoVal.str cfg.gcp.maxTTL),
                (("disable_automated_rotation"), GoVal.bool cfg.gcp.disableAutomatedRotation)]
                ++ (if cfg.gcp.serviceAccountPath ≠ "" then
                      [(("credentials"), GoVal.str creds)]
                    else []))],
            Except.ok ())) : List VaultCall × Except String Unit) := by
  by_cases hp : cfg.gcp.serviceAccountPath = ""
  · cases writeResult <;> simp [Vault.configureGCPEngine, hp]
  · have hc := hfile hp
    cases writeResult <;> simp [Vault.configureGCPEngine, hp, hc]

/-- Claim C1: `Initialize` is idempotent with respect to the `gcp`
mount — whenever the listed mount table contains a path equal to "gcp"
after stripping a trailing "/", no mount-enable call is issued and (the
configuration step succeeding) the function still returns success; and
only when no such mount exists does it enable a secrets engine of type
`gcp` at path "gcp". -/
theorem initialize_idempotent_on_existing_gcp_mount (cfg : Config)
    (mounts : List String) (mountResult : Except String Unit)
    (readFileResult : Except String String) (writeResult : Except String Unit)
    (creds : String) :
    (mounts.any (fun path => trimSuffix path ("/") == ("gcp")) = true →
      writeResult = Except.ok () →
      (cfg.gcp.serviceAccountPath ≠ "" → readFileResult = Except.ok creds) →
      (∀ p i, VaultCall.mountEnable p i ∉
        (Vault.Initialize cfg (Except.ok mounts) mountResult readFileResult writeResult).1) ∧
      (Vault.Initialize cfg (Except.ok mounts) mountResult readFileResult writeResult).2 =
        Except.ok ()) ∧
    (mounts.any (fun path => trimSuffix path ("/") == ("gcp")) = false →
      VaultCall.mountEnable ("gcp") (MountInput.mk ("gcp") Vault.gcpMountDescription) ∈
        (Vault.Initialize cfg (Except.ok mounts) mountResult readFileResult writeResult).1) := by
  constructor
  · intro hex hw hfile
    subst hw
    have hconf := configureGCPEngine_ok cfg readFileResult creds hfile (Except.ok ())
    constructor
    · intro p i
      simp [Vault.Initialize, hex, hconf, Vault.wrapConfigureResult]
    · simp [Vault.Initialize, hex, hconf, Vault.wrapConfigureResult]
  · intro hnone
    cases mountResult <;> simp [Vault.Initialize, hnone]

theorem initialize_idempotent_on_existing_gcp_mount_witness :
    (∀ p i, VaultCall.mountEnable p i ∉
      (Vault.Initialize sampleConfig (Except.ok [("gcp/")]) (Except.error ("down"))
        (Except.error ("no file")) (Except.ok ())).1) ∧
    (Vault.Initialize sampleConfig (Except.ok [("gcp/")]) (Except.error ("down"))
      (Except.error ("no file")) (Except.ok ())).2 = Except.ok () ∧
    VaultCall.mountEnable ("gcp") (MountInput.mk ("gcp") Vault.gcpMountDescription) ∈
      (Vault.Initialize sampleConfig (Except.ok ([] : List String)) (Except.ok ())
        (Except.error ("no file")) (Except.ok ())).1 := by
  have h₁ := initialize_idempotent_on_existing_gcp_mount sampleConfig [("gcp/")]
    (Except.error ("down")) (Except.error ("no file")) (Except.ok ()) ("")
  have h₂ := initialize_idempotent_on_existing_gcp_mount sampleConfig ([] : List String)
    (Except.ok ()) (Except.error ("no file")) (Except.ok ()) ("")
  have hmain := h₁.1 (by decide) rfl (fun hp => absurd rfl hp)
  exact ⟨hmain.1, hmain.2, h₂.2 (by decide)⟩

/-- Claim C2: after every successful mount-existence check — on both
the pre-existing-mount branch and the (successfully) newly-mounted
branch — `Initialize` issues the engine-configuration write to
`gcp/config`, whose payload is exactly ttl, max_ttl and
disable_automated_rotation from the loaded settings, plus a
`credentials` field holding the raw file contents exactly when a
service-account credentials path is configured. -/
theorem configure_engine_always_runs (cfg : Config) (mounts : List String)
    (mountResult : Except String Unit) (readFileResult : Except String String)
    (writeResult : Except String Unit) (creds : String) :
    (cfg.gcp.serviceAccountPath ≠ "" → readFileResult = Except.ok creds) →
    (mounts.any (fun path => trimSuffix path ("/") == ("gcp")) = false →
      mountResult = Except.ok ()) →
    VaultCall.logicalWrite ("gcp/config")
        ([(("ttl"), GoVal.str cfg.gcp.defaultTTL),
          (("max_ttl"), GoVal.str cfg.gcp.maxTTL),
          (("disable_automated_rotation"), GoVal.bool cfg.gcp.disableAutomatedRotation)]
          ++ (if cfg.gcp.serviceAccountPath ≠ "" then [(("credentials"), GoVal.str creds)]
              else [])) ∈
      (Vault.Initialize cfg (Except.ok mounts) mountResult readFileResult writeResult).1 := by
  intro hfile hmount
  have hconf := configureGCPEngine_ok cfg readFileResult creds hfile writeResult
  cases hex : mounts.any (fun path => trimSuffix path ("/") == ("gcp")) with
  | true =>
    cases writeResult <;>
      simp [Vault.Initialize, hex, hconf, Vault.wrapConfigureResult]
  | false =>
    rw [hmount hex]
    cases writeResult <;>
      simp [Vault.Initialize, hex, hconf, Vault.wrapConfigureResult]

theorem configure_engine_always_runs_witness :
    VaultCall.logicalWrite ("gcp/config")
        ([(("ttl"), GoVal.str sampleConfigSA.gcp.defaultTTL),
          (("max_ttl"), GoVal.str sampleConfigSA.gcp.maxTTL),
          (("disable_automated_rotation"),
            GoVal.bool sampleConfigSA.gcp.disableAutomatedRotation)]
          ++ (if sampleConfigSA.gcp.serviceAccountPath ≠ "" then
                [(("credentials"), GoVal.str ("CREDS"))]
              else [])) ∈
      (Vault.Initialize sampleConfigSA (Except.ok ([] : List String)) (Except.ok ())
        (Except.ok ("CREDS")) (Except.error ("write refused"))).1 :=
  configure_engine_always_runs sampleConfigSA ([] : List String) (Except.ok ())
    (Except.ok ("CREDS")) (Except.error ("write refused")) ("CREDS")
    (fun _ => rfl) (fun _ => rfl)

/-- Claim C6: `GetToken` and `GetServiceAccountKey` on an upstream
response that is a `nil` secret or has `nil` data return an error —
for `GetToken` with message "no token data returned" — never an empty
success result. -/
theorem getToken_getKey_nil_data_error (name ttl : String) :
    (Vault.GetToken name ttl (Except.ok none)).2 =
      GoOutcome.err ("no token data returned") ∧
    (Vault.GetToken name ttl (Except.ok (some (GoSecret.mk none)))).2 =
      GoOutcome.err ("no token data returned") ∧
    (Vault.GetServiceAccountKey name (Except.ok none)).2 =
      GoOutcome.err ("no key data returned") ∧
    (Vault.GetServiceAccountKey name (Except.ok (some (GoSecret.mk none)))).2 =
      GoOutcome.err ("no key data returned") :=
  ⟨rfl, rfl, rfl, rfl⟩

/-- Claim C7: `ListRolesets` on an upstream response that is a `nil`
secret or has `nil` data succeeds with the empty list of names. -/
theorem listRolesets_nil_data_empty :
    (Vault.ListRolesets (Except.ok none)).2 = GoOutcome.ok ([] : List String) ∧
    (Vault.ListRolesets (Except.ok (some (GoSecret.mk none)))).2 =
      GoOutcome.ok ([] : List String) :=
  ⟨rfl, rfl⟩

/-- Claim C4 (code evaluated at the failing input): a create-roleset
request with a non-empty name whose body supplies `project` and a valid
`secret_type` but omits `bindings` (which therefore decodes to the zero
value `""`) is rejected with 400 "Invalid bindings format" before the
gateway is called, for every model of `json.Unmarshal` that fails on
empty input — the handler never forwards such a roleset. -/
theorem create_handler_rejects_omitted_bindings
    (unmarshalBindings : String → Except String (List (String × GoVal)))
    (gatewayResult : Except String Unit) (e : String)
    (hempty : unmarshalBindings ("") = Except.error e) :
    Handlers.CreateRoleset ("r1")
        (some (Handlers.HRolesetRequest.mk ("p") ("access_token") ("") ("") ("") ("")))
        unmarshalBindings gatewayResult =
      Handlers.HandlerTrace.mk
        (Handlers.HttpReply.failure 400 ("Invalid bindings format") none) false := by
  simp [Handlers.CreateRoleset, Handlers.ShouldBindJSON, Handlers.bindingValidate, hempty]

theorem create_handler_rejects_omitted_bindings_witness :
    Handlers.CreateRoleset ("r1")
        (some (Handlers.HRolesetRequest.mk ("p") ("access_token") ("") ("") ("") ("")))
        jsonUnmarshalStub (Except.ok ()) =
      Handlers.HandlerTrace.mk
        (Handlers.HttpReply.failure 400 ("Invalid bindings format") none) false :=
  create_handler_rejects_omitted_bindings jsonUnmarshalStub (Except.ok ())
    ("unexpected end of JSON input") rfl

/-- Claim C5 counterexample: it is not the case that every handler
passes its gateway operation a context derived from the inbound
request's cancellable context with a bounded timeout — the
create-roleset handler passes a fresh background context with no
timeout. -/
theorem gateway_ctx_claim_counterexample :
    ¬ (∀ op : Handlers.GatewayOp,
        (Handlers.handlerCtx op).parent = Handlers.CtxParent.requestCtx ∧
        (Handlers.handlerCtx op).timeoutSeconds.isSome = true) := by
  intro h
  have := h Handlers.GatewayOp.createRoleset
  simp [Handlers.handlerCtx] at this

/-- Claim C5 (amended): every handler except create-roleset passes its
gateway operation a context derived from the inbound request's
cancellable context with a bounded timeout; the create-roleset handler
instead passes a fresh background context with no timeout. -/
theorem gateway_ctx_request_derived_except_create (op : Handlers.GatewayOp) :
    (op ≠ Handlers.GatewayOp.createRoleset →
      (Handlers.handlerCtx op).parent = Handlers.CtxParent.requestCtx ∧
      (Handlers.handlerCtx op).timeoutSeconds.isSome = true) ∧
    (op = Handlers.GatewayOp.createRoleset →
      Handlers.handlerCtx op =
        Handlers.CtxSpec.mk Handlers.CtxParent.background none) := by
  cases op with
  | createRoleset => exact ⟨fun h => absurd rfl h, fun _ => rfl⟩
  | listRolesets => exact ⟨fun _ => ⟨rfl, rfl⟩, fun h => nomatch h⟩
  | deleteRoleset => exact ⟨fun _ => ⟨rfl, rfl⟩, fun h => nomatch h⟩
  | getToken => exact ⟨fun _ => ⟨rfl, rfl⟩, fun h => nomatch h⟩
  | getKey => exact ⟨fun _ => ⟨rfl, rfl⟩, fun h => nomatch h⟩
  | healthProbe => exact ⟨fun _ => ⟨rfl, rfl⟩, fun h => nomatch h⟩

theorem gateway_ctx_request_derived_except_create_witness :
    (Handlers.handlerCtx Handlers.GatewayOp.listRolesets).parent =
      Handlers.CtxParent.requestCtx ∧
    (Handlers.handlerCtx Handlers.GatewayOp.listRolesets).timeoutSeconds.isSome = true :=
  (gateway_ctx_request_derived_except_create Handlers.GatewayOp.listRolesets).1 (by decide)

/-- Claim C8: a create-roleset request with a non-empty name whose
decoded body is missing `project` or carries a `secret_type` other than
`access_token` or `service_account_key` is answered 400 and the gateway
(hence Vault) is never called. -/
theorem create_handler_rejects_invalid_secret_type (name : String)
    (r : Handlers.HRolesetRequest)
    (unmarshalBindings : String → Except String (List (String × GoVal)))
    (gatewayResult : Except String Unit)
    (hname : name ≠ "")
    (hbad : r.project = "" ∨
      (r.secretType ≠ ("access_token") ∧ r.secretType ≠ ("service_account_key"))) :
    (Handlers.CreateRoleset name (some r) unmarshalBindings gatewayResult).reply.status = 400 ∧
    (Handlers.CreateRoleset name (some r) unmarshalBindings gatewayResult).gatewayCalled
      = false := by
  have hval : Handlers.bindingValidate r = false := by
    rcases hbad with hproj | ⟨h1, h2⟩
    · simp [Handlers.bindingValidate, hproj]
    · simp [Handlers.bindingValidate, h1, h2]
  simp [Handlers.CreateRoleset, Handlers.ShouldBindJSON, hval, hname,
    Handlers.HttpReply.status]

theorem create_handler_rejects_invalid_secret_type_witness :
    (Handlers.CreateRoleset ("r2")
        (some (Handlers.HRolesetRequest.mk ("p") ("bogus") ("") ("") ("") ("")))
        jsonUnmarshalStub (Except.ok ())).reply.status = 400 ∧
    (Handlers.CreateRoleset ("r2")
        (some (Handlers.HRolesetRequest.mk ("p") ("bogus") ("") ("") ("") ("")))
        jsonUnmarshalStub (Except.ok ())).gatewayCalled = false :=
  create_handler_rejects_invalid_secret_type ("r2")
    (Handlers.HRolesetRequest.mk ("p") ("bogus") ("") ("") ("") (""))
    jsonUnmarshalStub (Except.ok ()) (by decide)
    (Or.inr ⟨by decide, by decide⟩)

/-- Claim C9: `HealthCheck` fails exactly when the probe call itself
errors, or the probe succeeds but reports not-initialized or sealed; in
particular a successful probe with `sealed=true` is a failure and a
successful probe with `initialized=true, sealed=false` is a success. -/
theorem healthCheck_failure_characterization :
    (∀ e : String, isErr (Vault.HealthCheck (Except.error e)) = true) ∧
    (∀ h : GoHealth, isErr (Vault.HealthCheck (Except.ok h)) = (!h.initialized || h.sealed)) := by
  constructor
  · intro e; rfl
  · intro h
    cases hc : (!h.initialized || h.sealed) <;> simp [Vault.HealthCheck, isErr, hc]

theorem decodeTokenSecret_panics (d : List (String × GoVal))
    (hf : tokenFieldsTyped d = false) :
    ∃ m, Vault.decodeTokenSecret (Except.ok (some (GoSecret.mk (some d)))) =
      GoOutcome.panicked m := by
  simp only [Vault.decodeTokenSecret]
  repeat' split
  all_goals try exact ⟨_, rfl⟩
  all_goals (exfalso; simp [tokenFieldsTyped, *] at hf)

theorem decodeKeySecret_panics (d : List (String × GoVal))
    (hf : keyFieldsTyped d = false) :
    ∃ m, Vault.decodeKeySecret (Except.ok (some (GoSecret.mk (some d)))) =
      GoOutcome.panicked m := by
  simp only [Vault.decodeKeySecret]
  repeat' split
  all_goals try exact ⟨_, rfl⟩
  all_goals (exfalso; simp [keyFieldsTyped, *] at hf)

/-- Claim C10 (implicit): when `GetToken` or `GetServiceAccountKey`
receives a non-nil response with non-nil data in which some required
field is absent or of the wrong dynamic type, the operation does not
return its "no … data returned" error — the unchecked type assertion
panics, and the recovery middleware turns the panic into a generic 500
"Internal server error" reply with no upstream details. -/
theorem type_assertion_panics_to_generic_500 (name ttl : String)
    (d : List (String × GoVal)) (hname : name ≠ "") :
    (tokenFieldsTyped d = false →
      (Vault.GetToken name ttl (Except.ok (some (GoSecret.mk (some d))))).2 ≠
        GoOutcome.err ("no token data returned") ∧
      (∃ m, (Vault.GetToken name ttl (Except.ok (some (GoSecret.mk (some d))))).2 =
        GoOutcome.panicked m) ∧
      Handlers.ErrorHandlingMiddleware
          (Handlers.GetAccessToken name ttl (Except.ok (some (GoSecret.mk (some d))))) =
        Handlers.HttpReply.failure 500 ("Internal server error") none) ∧
    (keyFieldsTyped d = false →
      (Vault.GetServiceAccountKey name (Except.ok (some (GoSecret.mk (some d))))).2 ≠
        GoOutcome.err ("no key data returned") ∧
      (∃ m, (Vault.GetServiceAccountKey name (Except.ok (some (GoSecret.mk (some d))))).2 =
        GoOutcome.panicked m) ∧
      Handlers.ErrorHandlingMiddleware
          (Handlers.GetServiceAccountKey name (Except.ok (some (GoSecret.mk (some d))))) =
        Handlers.HttpReply.failure 500 ("Internal server error") none) := by
  constructor
  · intro hf
    obtain ⟨m, hm⟩ := decodeTokenSecret_panics d hf
    have hsnd : (Vault.GetToken name ttl (Except.ok (some (GoSecret.mk (some d))))).2 =
        GoOutcome.panicked m := hm
    refine ⟨?_, ⟨m, hsnd⟩, ?_⟩
    · rw [hsnd]; intro h; cases h
    · simp [Handlers.GetAccessToken, hsnd, hname, Handlers.ErrorHandlingMiddleware]
  · intro hf
    obtain ⟨m, hm⟩ := decodeKeySecret_panics d hf
    have hsnd : (Vault.GetServiceAccountKey name (Except.ok (some (GoSecret.mk (some d))))).2 =
        GoOutcome.panicked m := hm
    refine ⟨?_, ⟨m, hsnd⟩, ?_⟩
    · rw [hsnd]; intro h; cases h
    · simp [Handlers.GetServiceAccountKey, hsnd, hname, Handlers.ErrorHandlingMiddleware]

theorem type_assertion_panics_to_generic_500_witness :
    tokenFieldsTyped ([] : List (String × GoVal)) = false ∧
    keyFieldsTyped ([] : List (String × GoVal)) = false ∧
    (∃ m, (Vault.GetToken ("r1") ("") (Except.ok (some (GoSecret.mk (some []))))).2 =
      GoOutcome.panicked m) ∧
    Handlers.ErrorHandlingMiddleware
        (Handlers.GetAccessToken ("r1") ("") (Except.ok (some (GoSecret.mk (some []))))) =
      Handlers.HttpReply.failure 500 ("Internal server error") none ∧
    Handlers.ErrorHandlingMiddleware
        (Handlers.GetServiceAccountKey ("r1") (Except.ok (some (GoSecret.mk (some []))))) =
      Handlers.HttpReply.failure 500 ("Internal server error") none := by
  have h := type_assertion_panics_to_generic_500 ("r1") ("")
    ([] : List (String × GoVal)) (by decide)
  have h₁ := h.1 (by decide)
  have h₂ := h.2 (by decide)
  exact ⟨by decide, by decide, h₁.2.1, h₁.2.2, h₂.2.2⟩
